import Mathlib

/-!
Verification of the object reconstruction pipeline driver
(src/ros/nodes/object_reconstruction.cpp, class object_reconstruction_node).

The orchestration code under src/ is embedded faithfully; the subcomponents
it calls (PointCloudAccumulator, ObjectCandidateExtractor, HelperFunctions,
OcclusionRepair) are not part of the given sources, so the accumulator is
modelled from the spec and the extractor and mesh converter are taken as
arbitrary function parameters, mirroring the member objects of the node.
Side effects (file writes, publishing, service invocations) are recorded as
an explicit event trace in the order the code performs them.
-/

namespace ObjectReconstruction

/-- A 3D point: integer coordinates stand in for the sensor positions; the
optional normal and colour attributes play no role in the driver. -/
structure Point where
  x : Int
  y : Int
  z : Int
deriving DecidableEq, Repr

/-- Point Cloud: an ordered sequence of points (spec data model). -/
structure PointCloud where
  points : List Point
deriving DecidableEq, Repr

/-- Frame: one sensor capture, a point cloud plus an acquisition pose.  The
pose is modelled as a translation to the common reference frame. -/
structure Frame where
  cloud : PointCloud
  pose : Point
deriving DecidableEq, Repr

/-- Apply a pose (translation) to a point. -/
def transformPoint (pose p : Point) : Point :=
  ⟨p.x + pose.x, p.y + pose.y, p.z + pose.z⟩

/-- Mesh: vertices plus triangular faces, the PCLMesh of the node. -/
structure PCLMesh where
  vertices : List Point
  faces : List (Nat × Nat × Nat)
deriving DecidableEq, Repr

/-- Error kind raised by the accumulation stage. -/
inductive AccError
  | insufficientFrames
deriving DecidableEq, Repr

/-- The pose-aligned concatenation of the first frameCount frames of the
sensor stream. -/
def accumulatedCloud (frameCount : Nat) (stream : List Frame) : PointCloud :=
  ⟨(stream.take frameCount).flatMap fun f => f.cloud.points.map (transformPoint f.pose)⟩

/-- Modelled from the spec: PointCloudAccumulator::AccumulatePointClouds is
not under src/.  Per the spec it collects frameCount successive frames from
the sensor stream, transforms each into the reference frame using its pose,
and concatenates; it fails with InsufficientFrames if fewer than frameCount
frames are available before the timeout.  The stream is the list of frames
the sensor delivers before the timeout. -/
def AccumulatePointClouds (frameCount : Nat) (stream : List Frame) :
    Except AccError PointCloud :=
  if stream.length < frameCount then
    .error .insufficientFrames
  else
    .ok (accumulatedCloud frameCount stream)

/-- The FixOcclusion service response: a single success boolean. -/
structure FixOcclusionResponse where
  success : Bool
deriving DecidableEq, Repr

/-- The mutable instance fields of object_reconstruction_node that
FixOcclusions writes (lines 99, 105, 111 of the source). -/
structure NodeState where
  m_resulting_cloud : PointCloud
  m_object_candidates : List PointCloud
  m_operating_mesh : PCLMesh
deriving DecidableEq, Repr

/-- Observable side effects of one FixOcclusions run, in program order. -/
inductive Event
  | accumulateCall (frameCount : Nat)
  | writePCD (name : String)
  | extractCall (name : String)
  | publishCandidates
  | writeMultiplePCD (name : String)
  | convertCloudToMesh (index : Nat) (name : String)
  | detectOcclusion (name : String)
deriving DecidableEq, Repr

instance {ε α : Type} [DecidableEq ε] [DecidableEq α] : DecidableEq (Except ε α) := fun a b =>
  match a, b with
  | .error e, .error f =>
      if h : e = f then isTrue (by rw [h]) else isFalse (by intro hh; cases hh; exact h rfl)
  | .ok x, .ok y =>
      if h : x = y then isTrue (by rw [h]) else isFalse (by intro hh; cases hh; exact h rfl)
  | .error _, .ok _ => isFalse (by intro hh; cases hh)
  | .ok _, .error _ => isFalse (by intro hh; cases hh)

/-- Result of one FixOcclusions run: the service outcome (the response and
the returned boolean, or the exception that escaped the handler), the final
field state, and the event trace. -/
structure RunOutcome where
  outcome : Except AccError (FixOcclusionResponse × Bool)
  state : NodeState
  events : List Event
deriving DecidableEq, Repr

/-- The for-loop of FixOcclusions (source lines 78 to 84): for each candidate
index i the loop rebinds candidate_name to the per-candidate artifact name,
overwrites m_operating_mesh with the converted mesh, and moves on; the call
to DetectOcclusion on line 83 is commented out and emits no event.  The loop
is rendered structurally on the suffix of candidates not yet visited, with i
the index of the next candidate. -/
def meshLoop (m_output_directory : String)
    (convertCloudToMesh : String → PointCloud → PCLMesh) :
    List PointCloud → Nat → PCLMesh → List Event → PCLMesh × List Event
  | [], _, m_operating_mesh, events => (m_operating_mesh, events)
  | c :: rest, i, _, events =>
      let candidate_name := m_output_directory ++ "03-ObjectCandidate-" ++ toString i
      meshLoop m_output_directory convertCloudToMesh rest (i + 1)
        (convertCloudToMesh candidate_name c)
        (events ++ [Event.convertCloudToMesh i candidate_name])

/-- The FixOcclusions service handler (source lines 60 to 94), embedded as a
function of the output directory, the two collaborator objects it calls
(candidate extractor and cloud-to-mesh converter, arbitrary functions since
their code is not under src/), the sensor stream consumed by the
accumulator, and the prior field state.  The accumulator result is bound
without any check, so an accumulation failure escapes the handler as an
exception; otherwise the handler follows the source line by line. -/
def FixOcclusions (m_output_directory : String)
    (extractCandidateObjects : String → PointCloud → List PointCloud)
    (convertCloudToMesh : String → PointCloud → PCLMesh)
    (stream : List Frame) (s : NodeState) : RunOutcome :=
  let candidate_name := m_output_directory ++ "01-AccumulatedPointCloud"
  match AccumulatePointClouds 1 stream with
  | .error e =>
      { outcome := .error e, state := s, events := [Event.accumulateCall 1] }
  | .ok m_resulting_cloud =>
      let events := [Event.accumulateCall 1, Event.writePCD candidate_name]
      let candidate_name := m_output_directory ++ "00-Debugging"
      let m_object_candidates := extractCandidateObjects candidate_name m_resulting_cloud
      let events := events ++ [Event.extractCall candidate_name]
      if m_object_candidates.length ≠ 0 then
        let events := events ++ [Event.publishCandidates]
        let candidate_name := m_output_directory ++ "02-ObjectCandidates"
        let events := events ++ [Event.writeMultiplePCD candidate_name]
        let r := meshLoop m_output_directory convertCloudToMesh m_object_candidates 0
          s.m_operating_mesh events
        { outcome := .ok (⟨true⟩, true),
          state := { m_resulting_cloud := m_resulting_cloud,
                     m_object_candidates := m_object_candidates,
                     m_operating_mesh := r.1 },
          events := r.2 }
      else
        { outcome := .ok (⟨false⟩, false),
          state := { m_resulting_cloud := m_resulting_cloud,
                     m_object_candidates := m_object_candidates,
                     m_operating_mesh := s.m_operating_mesh },
          events := events }

/-- Modelled from the spec: the configuration surface of the pipeline.  The
source exposes none of these as parameters; the structure exists to state
what the spec claims about configurability. -/
inductive RepairMode
  | Skip
  | DetectOnly
  | DetectAndRepair
deriving DecidableEq, Repr

/-- Modelled from the spec: the configuration surface (output directory,
frame count to accumulate, segmentation thresholds, mesh minimum point
count, occlusion hole-size threshold, repair-mode flag). -/
structure Config where
  outputDirectory : String
  frameCount : Nat
  planeInlierThreshold : Nat
  planeIterationCap : Nat
  clusterDistanceThreshold : Nat
  clusterMinSize : Nat
  clusterMaxSize : Nat
  meshMinPointCount : Nat
  occlusionHoleSizeThreshold : Nat
  repairMode : RepairMode
deriving Repr

/-- Modelled from the spec: a candidate fails (DegenerateCandidate) when its
point count is below the mesh minimum point count, in which case meshing
yields an explicitly empty mesh instead of a triangulation. -/
def candidateFailed (meshMinPointCount : Nat) (c : PointCloud) : Bool :=
  c.points.length < meshMinPointCount

/-- The frame counts the driver requested from the accumulator in a trace. -/
def accumulateRequests (events : List Event) : List Nat :=
  events.filterMap fun e =>
    match e with
    | .accumulateCall n => some n
    | _ => none

/-- The mesh-build invocations of a trace: candidate index and artifact name
of each convertCloudToMesh call, in order. -/
def meshBuildEvents (events : List Event) : List (Nat × String) :=
  events.filterMap fun e =>
    match e with
    | .convertCloudToMesh i n => some (i, n)
    | _ => none

/-- Whether an event is an occlusion-detection invocation. -/
def isDetectEvent : Event → Bool
  | .detectOcclusion _ => true
  | _ => false

/-- The full event trace a run with n extracted candidates produces. -/
def stdEvents (d : String) (n : Nat) : List Event :=
  [Event.accumulateCall 1, Event.writePCD (d ++ "01-AccumulatedPointCloud"),
   Event.extractCall (d ++ "00-Debugging")] ++
  if n ≠ 0 then
    Event.publishCandidates :: Event.writeMultiplePCD (d ++ "02-ObjectCandidates") ::
      (List.range n).map (fun i => Event.convertCloudToMesh i (d ++ "03-ObjectCandidate-" ++ toString i))
  else []

section Fixtures

/-- A concrete non-degenerate sensor frame with three points. -/
def sampleFrame : Frame := ⟨⟨[⟨0, 0, 0⟩, ⟨1, 0, 0⟩, ⟨0, 1, 0⟩]⟩, ⟨0, 0, 0⟩⟩

/-- The empty mesh. -/
def emptyMesh : PCLMesh := ⟨[], []⟩

/-- A concrete prior field state. -/
def initState : NodeState := ⟨⟨[]⟩, [], emptyMesh⟩

/-- A concrete extractor finding no candidate. -/
def extractorNone : String → PointCloud → List PointCloud := fun _ _ => []

/-- A concrete extractor returning the whole cloud as the one candidate. -/
def extractorOne : String → PointCloud → List PointCloud := fun _ c => [c]

/-- A concrete extractor returning a single degenerate (empty) candidate. -/
def extractorDegenerate : String → PointCloud → List PointCloud := fun _ _ => [⟨[]⟩]

/-- A concrete extractor returning one valid and one degenerate candidate. -/
def extractorTwo : String → PointCloud → List PointCloud := fun _ c => [c, ⟨[]⟩]

/-- A concrete mesh converter following the spec shape: clouds below three
points give the explicitly empty mesh, others one triangle. -/
def convertTriv : String → PointCloud → PCLMesh :=
  fun _ c => if 3 ≤ c.points.length then ⟨c.points, [(0, 1, 2)]⟩ else ⟨[], []⟩

end Fixtures

section Lemmas

theorem meshLoop_trace (d : String) (c : String → PointCloud → PCLMesh)
    (cands : List PointCloud) (i : Nat) (m : PCLMesh) (evs : List Event) :
    (meshLoop d c cands i m evs).2 =
      evs ++ (List.range' i cands.length).map
        (fun j => Event.convertCloudToMesh j (d ++ "03-ObjectCandidate-" ++ toString j)) := by
  induction cands generalizing i m evs with
  | nil => simp [meshLoop]
  | cons hd tl ih =>
      rw [meshLoop, ih]
      rw [List.length_cons, List.range'_succ i _ 1]
      simp

theorem meshLoop_mesh (d : String) (c : String → PointCloud → PCLMesh)
    (hd : PointCloud) (tl : List PointCloud) (i : Nat) (m : PCLMesh)
    (evs : List Event) :
    (meshLoop d c (hd :: tl) i m evs).1 =
      c (d ++ "03-ObjectCandidate-" ++ toString (i + tl.length))
        ((hd :: tl).getLast (List.cons_ne_nil hd tl)) := by
  induction tl generalizing hd i m evs with
  | nil => simp [meshLoop]
  | cons hd2 tl2 ih =>
      rw [meshLoop, ih hd2 (i + 1)]
      rw [show ((hd :: hd2 :: tl2).getLast (List.cons_ne_nil hd (hd2 :: tl2))) =
        ((hd2 :: tl2).getLast (List.cons_ne_nil hd2 tl2)) from List.getLast_cons _]
      congr 3
      simp
      omega

theorem accumulate_ok (stream : List Frame) (h : 1 ≤ stream.length) :
    AccumulatePointClouds 1 stream = .ok (accumulatedCloud 1 stream) := by
  unfold AccumulatePointClouds
  rw [if_neg (by omega)]

theorem fixOcclusions_state_cands (d : String)
    (ext : String → PointCloud → List PointCloud)
    (conv : String → PointCloud → PCLMesh)
    (stream : List Frame) (s : NodeState) (h : 1 ≤ stream.length) :
    (FixOcclusions d ext conv stream s).state.m_object_candidates =
      ext (d ++ "00-Debugging") (accumulatedCloud 1 stream) := by
  unfold FixOcclusions
  rw [accumulate_ok stream h]
  by_cases hc : (ext (d ++ "00-Debugging") (accumulatedCloud 1 stream)).length ≠ 0 <;>
    simp [hc]

theorem fixOcclusions_outcome (d : String)
    (ext : String → PointCloud → List PointCloud)
    (conv : String → PointCloud → PCLMesh)
    (stream : List Frame) (s : NodeState) (h : 1 ≤ stream.length) :
    (FixOcclusions d ext conv stream s).outcome =
      (if (FixOcclusions d ext conv stream s).state.m_object_candidates.length ≠ 0 then
        .ok (⟨true⟩, true) else .ok (⟨false⟩, false)) := by
  rw [fixOcclusions_state_cands d ext conv stream s h]
  unfold FixOcclusions
  rw [accumulate_ok stream h]
  by_cases hc : (ext (d ++ "00-Debugging") (accumulatedCloud 1 stream)).length ≠ 0 <;>
    simp [hc]

theorem fixOcclusions_trace (d : String)
    (ext : String → PointCloud → List PointCloud)
    (conv : String → PointCloud → PCLMesh)
    (stream : List Frame) (s : NodeState) (h : 1 ≤ stream.length) :
    (FixOcclusions d ext conv stream s).events =
      stdEvents d (FixOcclusions d ext conv stream s).state.m_object_candidates.length := by
  rw [fixOcclusions_state_cands d ext conv stream s h]
  unfold FixOcclusions
  rw [accumulate_ok stream h]
  by_cases hne : ext (d ++ "00-Debugging") (accumulatedCloud 1 stream) = []
  · simp [hne, stdEvents]
  · simp [hne, stdEvents, meshLoop_trace, List.range_eq_range']

theorem fixOcclusions_mesh (d : String)
    (ext : String → PointCloud → List PointCloud)
    (conv : String → PointCloud → PCLMesh)
    (stream : List Frame) (s : NodeState) (h : 1 ≤ stream.length)
    (hne : ext (d ++ "00-Debugging") (accumulatedCloud 1 stream) ≠ []) :
    (FixOcclusions d ext conv stream s).state.m_operating_mesh =
      conv (d ++ "03-ObjectCandidate-" ++
          toString ((ext (d ++ "00-Debugging") (accumulatedCloud 1 stream)).length - 1))
        ((ext (d ++ "00-Debugging") (accumulatedCloud 1 stream)).getLast hne) := by
  unfold FixOcclusions
  rw [accumulate_ok stream h]
  simp [hne]
  obtain ⟨hd, tl, htl⟩ : ∃ hd tl, ext (d ++ "00-Debugging") (accumulatedCloud 1 stream) = hd :: tl := by
    cases hx : ext (d ++ "00-Debugging") (accumulatedCloud 1 stream) with
    | nil => exact absurd hx hne
    | cons a b => exact ⟨a, b, rfl⟩
  simp only [htl, meshLoop_mesh]
  congr 3
  simp [htl]

theorem meshBuildEvents_convert_map (name : Nat → String) (l : List Nat) :
    meshBuildEvents (l.map fun i => Event.convertCloudToMesh i (name i)) =
      l.map fun i => (i, name i) := by
  induction l with
  | nil => rfl
  | cons a t ih =>
      unfold meshBuildEvents at ih ⊢
      simp only [List.map_cons, List.filterMap_cons]
      rw [ih]

theorem accumulateRequests_convert_map (name : Nat → String) (l : List Nat) :
    accumulateRequests (l.map fun i => Event.convertCloudToMesh i (name i)) = [] := by
  induction l with
  | nil => rfl
  | cons a t ih =>
      unfold accumulateRequests at ih ⊢
      simp only [List.map_cons, List.filterMap_cons]
      rw [ih]

theorem stdEvents_meshBuild (d : String) (n : Nat) :
    meshBuildEvents (stdEvents d n) =
      (List.range n).map fun i => (i, d ++ "03-ObjectCandidate-" ++ toString i) := by
  by_cases hn : n ≠ 0
  · rw [stdEvents, if_pos hn]
    have hmap := meshBuildEvents_convert_map
      (fun i => d ++ "03-ObjectCandidate-" ++ toString i) (List.range n)
    unfold meshBuildEvents at hmap ⊢
    simp only [List.filterMap_append, List.filterMap_cons]
    rw [hmap]
    rfl
  · rw [stdEvents, if_neg hn]
    have hn0 : n = 0 := by omega
    rw [hn0]
    rfl

theorem stdEvents_requests (d : String) (n : Nat) :
    accumulateRequests (stdEvents d n) = [1] := by
  by_cases hn : n ≠ 0
  · rw [stdEvents, if_pos hn]
    have hmap := accumulateRequests_convert_map
      (fun i => d ++ "03-ObjectCandidate-" ++ toString i) (List.range n)
    unfold accumulateRequests at hmap ⊢
    simp only [List.filterMap_append, List.filterMap_cons]
    rw [hmap]
    rfl
  · rw [stdEvents, if_neg hn]
    rfl

theorem stdEvents_no_detect (d : String) (n : Nat) :
    (stdEvents d n).all (fun e => !isDetectEvent e) = true := by
  by_cases hn : n ≠ 0 <;>
    simp [stdEvents, hn, isDetectEvent, List.all_eq_true]

theorem fixOcclusions_ok_stream (d : String)
    (ext : String → PointCloud → List PointCloud)
    (conv : String → PointCloud → PCLMesh)
    (stream : List Frame) (s : NodeState)
    (p : FixOcclusionResponse × Bool)
    (h : (FixOcclusions d ext conv stream s).outcome = .ok p) :
    1 ≤ stream.length := by
  by_contra hx
  have h0 : stream.length < 1 := by omega
  unfold FixOcclusions AccumulatePointClouds at h
  rw [if_pos h0] at h
  simp at h

end Lemmas

section Claims

/-- C3: for every run in which candidate extraction returns an empty
sequence, FixOcclusions stores success = false in the response and returns
it, invokes no meshing and no occlusion stage, and completes as a defined
non-error outcome (an ok result, not an exception). -/
theorem fixOcclusions_empty_candidates_defined_failure (d : String)
    (ext : String → PointCloud → List PointCloud)
    (conv : String → PointCloud → PCLMesh)
    (stream : List Frame) (s : NodeState)
    (h : 1 ≤ stream.length)
    (hc : ext (d ++ "00-Debugging") (accumulatedCloud 1 stream) = []) :
    (FixOcclusions d ext conv stream s).outcome = .ok (⟨false⟩, false) ∧
    meshBuildEvents (FixOcclusions d ext conv stream s).events = [] ∧
    (FixOcclusions d ext conv stream s).events.all (fun e => !isDetectEvent e) = true := by
  have hcand := fixOcclusions_state_cands d ext conv stream s h
  rw [hc] at hcand
  refine ⟨?_, ?_, ?_⟩
  · rw [fixOcclusions_outcome d ext conv stream s h, hcand]
    simp
  · rw [fixOcclusions_trace d ext conv stream s h, hcand, stdEvents_meshBuild]
    rfl
  · rw [fixOcclusions_trace d ext conv stream s h]
    exact stdEvents_no_detect d _

/-- C3 witness: a concrete one-frame run whose extractor finds nothing. -/
theorem fixOcclusions_empty_candidates_defined_failure_checked :
    (FixOcclusions "" extractorNone convertTriv [sampleFrame] initState).outcome =
      .ok (⟨false⟩, false) ∧
    meshBuildEvents (FixOcclusions "" extractorNone convertTriv [sampleFrame] initState).events = [] ∧
    (FixOcclusions "" extractorNone convertTriv [sampleFrame] initState).events.all
      (fun e => !isDetectEvent e) = true :=
  fixOcclusions_empty_candidates_defined_failure "" extractorNone convertTriv [sampleFrame]
    initState (by decide) (by decide)

/-- C4: fail-isolation: for every run whose candidate sequence has length
N ≥ 1, the driver invokes the mesh-building stage once per candidate index
0 ≤ i < N, in order; the converter is an arbitrary function, so any
per-candidate meshing outcome, including the degenerate empty mesh the spec
assigns to failed candidates, leaves the remaining candidates processed. -/
theorem fixOcclusions_meshes_every_candidate_in_order (d : String)
    (ext : String → PointCloud → List PointCloud)
    (conv : String → PointCloud → PCLMesh)
    (stream : List Frame) (s : NodeState)
    (h : 1 ≤ stream.length)
    (_hN : 1 ≤ (FixOcclusions d ext conv stream s).state.m_object_candidates.length) :
    meshBuildEvents (FixOcclusions d ext conv stream s).events =
      (List.range (FixOcclusions d ext conv stream s).state.m_object_candidates.length).map
        (fun i => (i, d ++ "03-ObjectCandidate-" ++ toString i)) := by
  rw [fixOcclusions_trace d ext conv stream s h, stdEvents_meshBuild]

/-- C4 witness: a concrete run with one valid and one degenerate candidate
still meshes both candidates, in order. -/
theorem fixOcclusions_meshes_every_candidate_in_order_checked :
    meshBuildEvents (FixOcclusions "" extractorTwo convertTriv [sampleFrame] initState).events =
      (List.range (FixOcclusions "" extractorTwo convertTriv [sampleFrame]
          initState).state.m_object_candidates.length).map
        (fun i => (i, "" ++ "03-ObjectCandidate-" ++ toString i)) :=
  fixOcclusions_meshes_every_candidate_in_order "" extractorTwo convertTriv [sampleFrame]
    initState (by decide) (by decide)

/-- C5: if the accumulator signals InsufficientFrames (the stream holds
fewer frames than the one requested), the whole run aborts: the outcome is
the propagated failure rather than a success response, and the trace holds
only the accumulate call itself, so no extraction, meshing, or occlusion
stage runs after the accumulation failure. -/
theorem fixOcclusions_insufficient_frames_aborts (d : String)
    (ext : String → PointCloud → List PointCloud)
    (conv : String → PointCloud → PCLMesh)
    (stream : List Frame) (s : NodeState)
    (h : stream.length < 1) :
    (FixOcclusions d ext conv stream s).outcome = .error .insufficientFrames ∧
    (FixOcclusions d ext conv stream s).events = [Event.accumulateCall 1] := by
  unfold FixOcclusions AccumulatePointClouds
  rw [if_pos h]
  exact ⟨rfl, rfl⟩

/-- C5 witness: the empty sensor stream. -/
theorem fixOcclusions_insufficient_frames_aborts_checked :
    (FixOcclusions "" extractorOne convertTriv [] initState).outcome =
      .error .insufficientFrames ∧
    (FixOcclusions "" extractorOne convertTriv [] initState).events =
      [Event.accumulateCall 1] :=
  fixOcclusions_insufficient_frames_aborts "" extractorOne convertTriv [] initState (by decide)

/-- A concrete configuration whose frame count to accumulate is five. -/
def cfgFive : Config :=
  { outputDirectory := "", frameCount := 5, planeInlierThreshold := 1,
    planeIterationCap := 100, clusterDistanceThreshold := 1, clusterMinSize := 10,
    clusterMaxSize := 5000, meshMinPointCount := 3, occlusionHoleSizeThreshold := 4,
    repairMode := RepairMode.DetectAndRepair }

/-- C6 counterexample: under a configuration whose frame count to accumulate
is five and with five frames available, the driver still requests exactly
one frame from the accumulator — the count is the hardcoded constant 1 of
source line 64, not the configured value. -/
theorem fixOcclusions_ignores_configured_frame_count :
    cfgFive.frameCount = 5 ∧
    accumulateRequests (FixOcclusions cfgFive.outputDirectory extractorOne convertTriv
      [sampleFrame, sampleFrame, sampleFrame, sampleFrame, sampleFrame] initState).events =
      [1] := by
  decide

/-- C6 amended: the number of frames the driver requests from the
accumulator is the fixed constant one on every run, independent of any
configuration value. -/
theorem fixOcclusions_requests_exactly_one_frame (d : String)
    (ext : String → PointCloud → List PointCloud)
    (conv : String → PointCloud → PCLMesh)
    (stream : List Frame) (s : NodeState) :
    accumulateRequests (FixOcclusions d ext conv stream s).events = [1] := by
  by_cases h : 1 ≤ stream.length
  · rw [fixOcclusions_trace d ext conv stream s h, stdEvents_requests]
  · unfold FixOcclusions AccumulatePointClouds
    rw [if_pos (by omega)]
    rfl

/-- C9: the outward outcome (response plus returned boolean) of
FixOcclusions does not depend on the values the mutable fields
m_resulting_cloud, m_object_candidates and m_operating_mesh held before the
call: runs from any two prior field states with identical external inputs
produce identical outcomes. -/
theorem fixOcclusions_outcome_ignores_prior_state (d : String)
    (ext : String → PointCloud → List PointCloud)
    (conv : String → PointCloud → PCLMesh)
    (stream : List Frame) (s1 s2 : NodeState) :
    (FixOcclusions d ext conv stream s1).outcome =
      (FixOcclusions d ext conv stream s2).outcome := by
  unfold FixOcclusions
  cases AccumulatePointClouds 1 stream with
  | error e => rfl
  | ok cloud =>
      by_cases hc : (ext (d ++ "00-Debugging") cloud).length ≠ 0 <;> simp [hc]

/-- C1 counterexample: a run whose single candidate is degenerate, so every
candidate failed under mesh minimum point count three, yet the stored
response has success = true — the driver only tests non-emptiness of the
candidate sequence, so success is not a faithful reduction of per-candidate
outcomes. -/
theorem fixOcclusions_not_a_faithful_reduction :
    (FixOcclusions "" extractorDegenerate convertTriv [sampleFrame] initState).outcome =
      .ok (⟨true⟩, true) ∧
    (FixOcclusions "" extractorDegenerate convertTriv [sampleFrame]
      initState).state.m_object_candidates.length = 1 ∧
    (FixOcclusions "" extractorDegenerate convertTriv [sampleFrame]
      initState).state.m_object_candidates.all (candidateFailed 3) = true := by
  decide

/-- C1 amended: for every run that reaches the per-candidate stage, the
response success field is true exactly when the candidate sequence is
non-empty; per-candidate outcomes play no part in it. -/
theorem fixOcclusions_success_is_mere_nonemptiness (d : String)
    (ext : String → PointCloud → List PointCloud)
    (conv : String → PointCloud → PCLMesh)
    (stream : List Frame) (s : NodeState)
    (resp : FixOcclusionResponse) (ret : Bool)
    (h : (FixOcclusions d ext conv stream s).outcome = .ok (resp, ret)) :
    resp.success = true ↔
      (FixOcclusions d ext conv stream s).state.m_object_candidates ≠ [] := by
  have h1 := fixOcclusions_ok_stream d ext conv stream s (resp, ret) h
  rw [fixOcclusions_outcome d ext conv stream s h1] at h
  by_cases hc : (FixOcclusions d ext conv stream s).state.m_object_candidates.length ≠ 0
  · rw [if_pos hc] at h
    injection h with h2
    injection h2 with h3 h4
    subst h3
    simp only [ne_eq, List.length_eq_zero] at hc
    simp [hc]
  · rw [if_neg hc] at h
    injection h with h2
    injection h2 with h3 h4
    subst h3
    simp only [ne_eq, not_not, List.length_eq_zero] at hc
    simp [hc]

/-- C1 witness: the amended claim evaluated on the degenerate-candidate
run. -/
theorem fixOcclusions_success_is_mere_nonemptiness_checked :
    (FixOcclusionResponse.mk true).success = true ↔
      (FixOcclusions "" extractorDegenerate convertTriv [sampleFrame]
        initState).state.m_object_candidates ≠ [] :=
  fixOcclusions_success_is_mere_nonemptiness "" extractorDegenerate convertTriv [sampleFrame]
    initState ⟨true⟩ true (by decide)

/-- C2 counterexample: a run with exactly one valid candidate (its three
points meet the mesh minimum point count three): the outward result is
success = true, but the trace contains no occlusion-detection event at all —
the DetectOcclusion call is commented out in the source and no repair-mode
flag exists to enable it — so with detection never invoked there is no
repaired mesh in the outcome. -/
theorem fixOcclusions_one_valid_candidate_no_repair :
    (FixOcclusions "" extractorOne convertTriv [sampleFrame] initState).outcome =
      .ok (⟨true⟩, true) ∧
    (FixOcclusions "" extractorOne convertTriv [sampleFrame]
      initState).state.m_object_candidates.length = 1 ∧
    (FixOcclusions "" extractorOne convertTriv [sampleFrame]
      initState).state.m_object_candidates.all (fun c => !candidateFailed 3 c) = true ∧
    (FixOcclusions "" extractorOne convertTriv [sampleFrame] initState).events.all
      (fun e => !isDetectEvent e) = true := by
  decide

/-- C2 amended: occlusion detection and repair are silently omitted, not
configuration-selected: no run emits an occlusion-detection event, while a
run with exactly one valid candidate still reports success = true. -/
theorem fixOcclusions_repair_silently_omitted (d : String)
    (ext : String → PointCloud → List PointCloud)
    (conv : String → PointCloud → PCLMesh)
    (stream : List Frame) (s : NodeState)
    (h : 1 ≤ stream.length)
    (hc : (FixOcclusions d ext conv stream s).state.m_object_candidates.length = 1) :
    (FixOcclusions d ext conv stream s).outcome = .ok (⟨true⟩, true) ∧
    (FixOcclusions d ext conv stream s).events.all (fun e => !isDetectEvent e) = true := by
  constructor
  · rw [fixOcclusions_outcome d ext conv stream s h, if_pos (by omega)]
  · rw [fixOcclusions_trace d ext conv stream s h]
    exact stdEvents_no_detect d _

/-- C2 witness: the amended claim evaluated on the one-valid-candidate
run. -/
theorem fixOcclusions_repair_silently_omitted_checked :
    (FixOcclusions "" extractorOne convertTriv [sampleFrame] initState).outcome =
      .ok (⟨true⟩, true) ∧
    (FixOcclusions "" extractorOne convertTriv [sampleFrame] initState).events.all
      (fun e => !isDetectEvent e) = true :=
  fixOcclusions_repair_silently_omitted "" extractorOne convertTriv [sampleFrame] initState
    (by decide) (by decide)

/-- C8: the boolean value FixOcclusions returns always equals the success
field it stored in the response, and both are true exactly when the
candidate sequence was non-empty and false exactly when it was empty. -/
theorem fixOcclusions_returns_stored_success (d : String)
    (ext : String → PointCloud → List PointCloud)
    (conv : String → PointCloud → PCLMesh)
    (stream : List Frame) (s : NodeState)
    (resp : FixOcclusionResponse) (ret : Bool)
    (h : (FixOcclusions d ext conv stream s).outcome = .ok (resp, ret)) :
    ret = resp.success ∧
    (resp.success = true ↔
      (FixOcclusions d ext conv stream s).state.m_object_candidates.length ≠ 0) := by
  have h1 := fixOcclusions_ok_stream d ext conv stream s (resp, ret) h
  rw [fixOcclusions_outcome d ext conv stream s h1] at h
  by_cases hc : (FixOcclusions d ext conv stream s).state.m_object_candidates.length ≠ 0
  · rw [if_pos hc] at h
    injection h with h2
    injection h2 with h3 h4
    subst h3
    subst h4
    simp [hc]
  · rw [if_neg hc] at h
    injection h with h2
    injection h2 with h3 h4
    subst h3
    subst h4
    simp [hc]

/-- C8 witness: the concrete empty-candidate run returns the stored false. -/
theorem fixOcclusions_returns_stored_success_checked :
    false = (FixOcclusionResponse.mk false).success ∧
    ((FixOcclusionResponse.mk false).success = true ↔
      (FixOcclusions "" extractorNone convertTriv [sampleFrame]
        initState).state.m_object_candidates.length ≠ 0) :=
  fixOcclusions_returns_stored_success "" extractorNone convertTriv [sampleFrame] initState
    ⟨false⟩ false (by decide)

/-- C7: debug artifact naming: every run past accumulation writes the
accumulated cloud under the configured output directory followed by
01-AccumulatedPointCloud; when candidates exist, the candidate set is
written under 02-ObjectCandidates and candidate i is meshed under
03-ObjectCandidate- followed by i; conversely, every write and every
mesh-build event in the trace carries exactly the name its stage
prescribes. -/
theorem fixOcclusions_artifact_names (d : String)
    (ext : String → PointCloud → List PointCloud)
    (conv : String → PointCloud → PCLMesh)
    (stream : List Frame) (s : NodeState)
    (h : 1 ≤ stream.length) :
    (Event.writePCD (d ++ "01-AccumulatedPointCloud") ∈
      (FixOcclusions d ext conv stream s).events) ∧
    (∀ n, Event.writePCD n ∈ (FixOcclusions d ext conv stream s).events →
      n = d ++ "01-AccumulatedPointCloud") ∧
    ((FixOcclusions d ext conv stream s).state.m_object_candidates.length ≠ 0 →
      Event.writeMultiplePCD (d ++ "02-ObjectCandidates") ∈
        (FixOcclusions d ext conv stream s).events) ∧
    (∀ n, Event.writeMultiplePCD n ∈ (FixOcclusions d ext conv stream s).events →
      n = d ++ "02-ObjectCandidates") ∧
    (∀ i, i < (FixOcclusions d ext conv stream s).state.m_object_candidates.length →
      Event.convertCloudToMesh i (d ++ "03-ObjectCandidate-" ++ toString i) ∈
        (FixOcclusions d ext conv stream s).events) ∧
    (∀ i n, Event.convertCloudToMesh i n ∈ (FixOcclusions d ext conv stream s).events →
      n = d ++ "03-ObjectCandidate-" ++ toString i) := by
  rw [fixOcclusions_trace d ext conv stream s h]
  by_cases hn : (FixOcclusions d ext conv stream s).state.m_object_candidates.length ≠ 0 <;>
    refine ⟨?_, ?_, ?_, ?_, ?_, ?_⟩ <;>
    simp [stdEvents, hn]
  · exact fun i hi => ⟨i, hi, rfl, rfl⟩
  · intro i n j _ he1 he2
    rw [← he2, ← he1]
  · omega

/-- C7 witness: the naming facts on a concrete two-candidate run. -/
theorem fixOcclusions_artifact_names_checked :
    (Event.writePCD ("" ++ "01-AccumulatedPointCloud") ∈
      (FixOcclusions "" extractorTwo convertTriv [sampleFrame] initState).events) ∧
    (∀ n, Event.writePCD n ∈ (FixOcclusions "" extractorTwo convertTriv [sampleFrame]
        initState).events → n = "" ++ "01-AccumulatedPointCloud") ∧
    ((FixOcclusions "" extractorTwo convertTriv [sampleFrame]
        initState).state.m_object_candidates.length ≠ 0 →
      Event.writeMultiplePCD ("" ++ "02-ObjectCandidates") ∈
        (FixOcclusions "" extractorTwo convertTriv [sampleFrame] initState).events) ∧
    (∀ n, Event.writeMultiplePCD n ∈ (FixOcclusions "" extractorTwo convertTriv [sampleFrame]
        initState).events → n = "" ++ "02-ObjectCandidates") ∧
    (∀ i, i < (FixOcclusions "" extractorTwo convertTriv [sampleFrame]
        initState).state.m_object_candidates.length →
      Event.convertCloudToMesh i ("" ++ "03-ObjectCandidate-" ++ toString i) ∈
        (FixOcclusions "" extractorTwo convertTriv [sampleFrame] initState).events) ∧
    (∀ i n, Event.convertCloudToMesh i n ∈ (FixOcclusions "" extractorTwo convertTriv
        [sampleFrame] initState).events → n = "" ++ "03-ObjectCandidate-" ++ toString i) :=
  fixOcclusions_artifact_names "" extractorTwo convertTriv [sampleFrame] initState (by decide)

/-- C10: after a run whose candidate sequence is non-empty, the single mesh
field m_operating_mesh holds exactly the mesh built from the last candidate
(index N - 1); the other state fields hold point clouds, not meshes, so no
mesh of an earlier candidate is retained in the state. -/
theorem fixOcclusions_retains_only_last_mesh (d : String)
    (ext : String → PointCloud → List PointCloud)
    (conv : String → PointCloud → PCLMesh)
    (stream : List Frame) (s : NodeState) (c : PointCloud)
    (h : 1 ≤ stream.length)
    (hlast : (FixOcclusions d ext conv stream s).state.m_object_candidates.getLast? =
      some c) :
    (FixOcclusions d ext conv stream s).state.m_operating_mesh =
      conv (d ++ "03-ObjectCandidate-" ++
        toString ((FixOcclusions d ext conv stream s).state.m_object_candidates.length - 1))
        c := by
  have hcand := fixOcclusions_state_cands d ext conv stream s h
  rw [hcand] at hlast ⊢
  have hne : ext (d ++ "00-Debugging") (accumulatedCloud 1 stream) ≠ [] := by
    intro hx
    rw [hx] at hlast
    simp at hlast
  rw [fixOcclusions_mesh d ext conv stream s h hne]
  congr 1
  rw [List.getLast?_eq_getLast _ hne] at hlast
  injection hlast

/-- C10 witness: on the two-candidate run, the field holds the mesh of the
second (last) candidate, the degenerate one. -/
theorem fixOcclusions_retains_only_last_mesh_checked :
    (FixOcclusions "" extractorTwo convertTriv [sampleFrame]
        initState).state.m_operating_mesh =
      convertTriv ("" ++ "03-ObjectCandidate-" ++
        toString ((FixOcclusions "" extractorTwo convertTriv [sampleFrame]
          initState).state.m_object_candidates.length - 1)) ⟨[]⟩ :=
  fixOcclusions_retains_only_last_mesh "" extractorTwo convertTriv [sampleFrame] initState
    ⟨[]⟩ (by decide) (by decide)

end Claims

end ObjectReconstruction
